import Mathlib

/-!
Shallow embedding of the client-side state-synchronization layer of the
slackai chat client: the per-channel message feed maintained by the
`useMessages` hook (src/unnamed/part_004, src/unnamed/part_005) and the
session/identity/workspace state maintained by `AuthProvider`
(src/src/contexts/AuthContext.tsx, src/unnamed/part_000).

Conventions of the embedding:
* `created_at` is an ISO-8601 timestamp string in the source; the server
  orders rows by it.  Lexicographic order of those strings coincides with
  chronological order, so we abstract the timestamp as a `Nat`.
* Remote calls (`supabase` queries, `JSON.parse`) are external
  collaborators; their responses enter the model as explicit parameters
  or as event payloads.
* Thrown JS exceptions are modelled with `Except`; supabase v2 auth
  calls such as `signOut()` report failure as a returned error value,
  never by throwing, and are modelled accordingly.
-/

namespace Slackai

/-- Denormalized author display fields joined via `profiles(display_name, avatar)`. -/
structure ProfileInfo where
  display_name : String
  avatar : Option String
deriving DecidableEq, Repr

/-- The `DatabaseMessage` interface of src/unnamed/part_004 and part_005.
`created_at`/`updated_at` are ISO strings in the source, abstracted as `Nat`. -/
structure DatabaseMessage where
  id : String
  content : String
  channel_id : String
  user_id : String
  parent_message_id : Option String
  is_pinned : Bool
  created_at : Nat
  updated_at : Nat
  profiles : Option ProfileInfo
deriving DecidableEq, Repr

/-- Event delivered to the feed, as the `useMessages` hook of
src/unnamed/part_005 (first variant) observes it:
* `snapshot rows`: completion of `fetchMessages` — `setMessages(data || [])`;
* `insert row`: the INSERT handler's by-id refetch resolved with `row`
  (when the refetch returns null the handler does nothing, so no event);
* `update row`: likewise for the UPDATE handler;
* `delete oldId`: the DELETE handler with `payload.old.id = oldId`. -/
inductive FeedEvent where
  | snapshot (rows : List DatabaseMessage)
  | insert (row : DatabaseMessage)
  | update (row : DatabaseMessage)
  | delete (oldId : String)
deriving DecidableEq, Repr

/-- INSERT handler body (part_005 line 94, part_004 line 47):
`setMessages(prev => [...prev, row])`. -/
def onInsert (row : DatabaseMessage) (feed : List DatabaseMessage) :
    List DatabaseMessage :=
  feed ++ [row]

/-- UPDATE handler body (part_005 lines 120-122):
`setMessages(prev => prev.map(msg => msg.id === row.id ? row : msg))`. -/
def onUpdate (row : DatabaseMessage) (feed : List DatabaseMessage) :
    List DatabaseMessage :=
  feed.map fun m => if m.id = row.id then row else m

/-- DELETE handler body (part_005 line 136):
`setMessages(prev => prev.filter(msg => msg.id !== oldId))`. -/
def onDelete (oldId : String) (feed : List DatabaseMessage) :
    List DatabaseMessage :=
  feed.filter fun m => m.id ≠ oldId

/-- One step of the feed state: apply a single observed event. -/
def applyFeedEvent : FeedEvent → List DatabaseMessage → List DatabaseMessage
  | .snapshot rows, _ => rows
  | .insert row, feed => onInsert row feed
  | .update row, feed => onUpdate row feed
  | .delete oldId, feed => onDelete oldId feed

/-- Apply a sequence of events in order. -/
def applyFeedEvents (es : List FeedEvent) (feed : List DatabaseMessage) :
    List DatabaseMessage :=
  es.foldl (fun f e => applyFeedEvent e f) feed

/-- Spec predicate: the feed contains each message id at most once. -/
def noDupIds (feed : List DatabaseMessage) : Prop :=
  (feed.map (·.id)).Nodup

instance (feed : List DatabaseMessage) : Decidable (noDupIds feed) := by
  unfold noDupIds; infer_instance

/-- Spec predicate: the feed is non-decreasing in creation timestamp. -/
def sortedByCreatedAt (feed : List DatabaseMessage) : Prop :=
  feed.Pairwise fun a b => a.created_at ≤ b.created_at

instance (feed : List DatabaseMessage) : Decidable (sortedByCreatedAt feed) := by
  unfold sortedByCreatedAt; infer_instance

/-- Concrete message `m1(t=10)` of spec Scenario B. -/
def msg1 : DatabaseMessage :=
  { id := "m1", content := "first", channel_id := "C", user_id := "u1"
  , parent_message_id := none, is_pinned := false
  , created_at := 10, updated_at := 10, profiles := none }

/-- Concrete message `m2(t=20)` of spec Scenarios B and C. -/
def msg2 : DatabaseMessage :=
  { id := "m2", content := "second", channel_id := "C", user_id := "u2"
  , parent_message_id := none, is_pinned := false
  , created_at := 20, updated_at := 20, profiles := none }

/-- Concrete message `m3(t=30)` of spec Scenario B. -/
def msg3 : DatabaseMessage :=
  { id := "m3", content := "third", channel_id := "C", user_id := "u1"
  , parent_message_id := none, is_pinned := false
  , created_at := 30, updated_at := 30, profiles := none }

/-- Lifecycle state of one mounted `useMessages` effect scope
(src/unnamed/part_005, first variant, lines 61-144): the rendered
feed, whether the realtime channel is still registered, and the ids
whose INSERT-handler by-id refetch is still awaiting its response. -/
structure HookState where
  messages : List DatabaseMessage
  subscribed : Bool
  pendingInsertFetches : List String
deriving DecidableEq, Repr

/-- Scheduler-level events of the effect scope:
* `insertNotified i`: the transport invokes the INSERT callback for row id
  `i`; the callback starts its by-id refetch and suspends (lines 80-91);
* `insertFetchResolved row`: the awaited refetch resolves with `row` and
  the continuation runs `setMessages(prev => [...prev, row])` (lines 93-95);
* `cleanup`: the effect cleanup runs `supabase.removeChannel(channel)`
  (lines 141-143), after which the transport delivers no new callbacks. -/
inductive HookEvent where
  | insertNotified (i : String)
  | insertFetchResolved (row : DatabaseMessage)
  | cleanup
deriving DecidableEq, Repr

/-- One scheduler step of the effect scope.  `removeChannel` stops new
deliveries (`insertNotified` is a no-op once `subscribed = false`) but the
source cancels no in-flight refetch and its continuation consults no
liveness flag, so `insertFetchResolved` appends regardless of
`subscribed`. -/
def hookStep : HookEvent → HookState → HookState
  | .insertNotified i, s =>
      if s.subscribed then
        { s with pendingInsertFetches := s.pendingInsertFetches ++ [i] }
      else s
  | .insertFetchResolved row, s =>
      if row.id ∈ s.pendingInsertFetches then
        { s with messages := s.messages ++ [row]
               , pendingInsertFetches := s.pendingInsertFetches.erase row.id }
      else s
  | .cleanup, s => { s with subscribed := false }

/-- State of the effect scope right after mount: empty feed, channel
registered, nothing in flight. -/
def hookInit : HookState :=
  { messages := [], subscribed := true, pendingInsertFetches := [] }

/-- The durable key-value cache (`localStorage`), as a map from key to
stored value. -/
abbrev Store := String → Option String

/-- `localStorage.getItem(k)`. -/
def Store.getItem (d : Store) (k : String) : Option String := d k

/-- `localStorage.setItem(k, v)`. -/
def Store.setItem (d : Store) (k v : String) : Store :=
  fun q => if q = k then some v else d q

/-- `localStorage.removeItem(k)`. -/
def Store.removeItem (d : Store) (k : String) : Store :=
  fun q => if q = k then none else d q

/-- A store holding nothing. -/
def Store.empty : Store := fun _ => none

/-- Minimal view of a supabase auth user as the provider consumes it. -/
structure SupabaseUser where
  id : String
  email : Option String
deriving DecidableEq, Repr

/-- The live authentication grant returned by the remote auth store. -/
structure Session where
  user : SupabaseUser
  access_token : String
  refresh_token : String
deriving DecidableEq, Repr

/-- A row of the remote `profiles` table, fields optional as consumed. -/
structure ProfileRow where
  display_name : Option String
  avatar : Option String
  status_text : Option String
  status_emoji : Option String
  presence : Option String
  timezone : Option String
deriving DecidableEq, Repr

/-- The `status` field of the client `User` interface. -/
structure UserStatus where
  text : String
  emoji : String
  expiration : Option Nat
deriving DecidableEq, Repr

/-- The client-side `User` interface of AuthContext.tsx / part_000.
`presence` is kept as a string because `loadUserProfile` defaults it to
the literal `'online'`. -/
structure User where
  id : String
  email : String
  displayName : String
  avatar : Option String
  status : UserStatus
  presence : String
  timezone : String
  role : String
  workspaceId : Option String
deriving DecidableEq, Repr

/-- The client-side `Workspace` interface of AuthContext.tsx / part_000. -/
structure Workspace where
  id : String
  name : String
  url : String
  icon : Option String
  isAdmin : Bool
  slug : Option String
deriving DecidableEq, Repr

/-- The provider's react state: `user`, `session`, `workspace`,
`isLoading`. -/
structure AuthState where
  user : Option User
  session : Option Session
  workspace : Option Workspace
  isLoading : Bool
deriving DecidableEq, Repr

/-- AuthContext.tsx line 66 / part_000 line 65:
`const isAuthenticated = !!session && !!user`. -/
def isAuthenticated (s : AuthState) : Bool :=
  s.session.isSome && s.user.isSome

/-- Fresh provider state at mount: everything null, `isLoading` true. -/
def authInitState : AuthState :=
  { user := none, session := none, workspace := none, isLoading := true }

/-- JS `a || b` where `a` is an optional, possibly empty string
(`undefined` and `''` are both falsy). -/
def jsOr (a : Option String) (b : String) : String :=
  match a with
  | some s => if s = "" then b else s
  | none => b

/-- `email?.split('@')[0] || ''` for an optional email. -/
def emailLocalPart (email : Option String) : String :=
  (email.getD "").takeWhile (· ≠ '@')

/-- The `userData` record built by `loadUserProfile` (AuthContext.tsx
lines 198-210, part_000 lines 232-244) from the auth user and the
fetched (or just-provisioned, hence absent) profile row.  `localTz` is
the ambient `Intl.DateTimeFormat().resolvedOptions().timeZone`. -/
def mkUserData (su : SupabaseUser) (profile : Option ProfileRow)
    (localTz : String) : User :=
  { id := su.id
  , email := su.email.getD ""
  , displayName := jsOr (profile.bind (·.display_name)) (emailLocalPart su.email)
  , avatar := profile.bind (·.avatar)
  , status := { text := jsOr (profile.bind (·.status_text)) ""
              , emoji := jsOr (profile.bind (·.status_emoji)) ""
              , expiration := none }
  , presence := jsOr (profile.bind (·.presence)) "online"
  , timezone := jsOr (profile.bind (·.timezone)) localTz
  , role := "Member"
  , workspaceId := none }

/-- Outcome of the remote profile fetch inside `loadUserProfile`
(AuthContext.tsx lines 166-196):
* `found row`: the select succeeded;
* `missingProvisionOk`: error PGRST116, and the provisioning insert
  succeeded — the code proceeds with the null profile's defaults;
* `missingProvisionFailed`: error PGRST116 but the insert failed — the
  function returns without setting the user;
* `otherError`: any other fetch error — the function returns without
  setting the user. -/
inductive ProfileFetchOutcome where
  | found (row : ProfileRow)
  | missingProvisionOk
  | missingProvisionFailed
  | otherError
deriving DecidableEq, Repr

/-- Effect of `loadUserProfile`'s tail on the provider state: `setUser`
is called exactly when the fetch found a row or provisioning succeeded,
and it is called unconditionally on the state at resumption time — the
source checks no liveness flag and does not re-check the session. -/
def applyProfileOutcome (su : SupabaseUser) (o : ProfileFetchOutcome)
    (localTz : String) (s : AuthState) : AuthState :=
  match o with
  | .found row => { s with user := some (mkUserData su (some row) localTz) }
  | .missingProvisionOk => { s with user := some (mkUserData su none localTz) }
  | .missingProvisionFailed => s
  | .otherError => s

/-- Scheduler-level state of the AuthContext.tsx provider: the react
state plus the auth users whose `loadUserProfile` fetch is in flight. -/
structure AuthMachine where
  auth : AuthState
  store : Store
  pendingProfileLoads : List SupabaseUser

/-- Scheduler-level events of the AuthContext.tsx provider
(lines 90-118 and 163-217):
* `signedIn sess`: the SIGNED_IN branch runs up to its suspension point —
  `setSession(session)`, then `loadUserProfile(session.user)` starts its
  fetch and awaits it;
* `signedOut`: the SIGNED_OUT branch (no awaits): session, user and
  workspace cleared, workspace keys removed, `isLoading` false;
* `profileFetchResolved su o`: an in-flight profile fetch resolves with
  outcome `o`; the continuation runs `setUser` per the outcome and then
  `setIsLoading(false)`. -/
inductive AuthEvent where
  | signedIn (sess : Session)
  | signedOut
  | profileFetchResolved (su : SupabaseUser) (o : ProfileFetchOutcome)

/-- One scheduler step of the AuthContext.tsx provider. -/
def authStep (localTz : String) : AuthEvent → AuthMachine → AuthMachine
  | .signedIn sess, m =>
      { m with auth := { m.auth with session := some sess }
             , pendingProfileLoads := m.pendingProfileLoads ++ [sess.user] }
  | .signedOut, m =>
      { m with
          auth := { m.auth with session := none, user := none
                              , workspace := none, isLoading := false }
        , store := ((m.store.removeItem "slack_workspace").removeItem
              "workspace_selected").removeItem "current_workspace_id" }
  | .profileFetchResolved su o, m =>
      if m.pendingProfileLoads.contains su then
        { m with
            auth := { applyProfileOutcome su o localTz m.auth with isLoading := false }
          , pendingProfileLoads := m.pendingProfileLoads.erase su }
      else m

/-- Apply a sequence of provider events in order. -/
def authSteps (localTz : String) (es : List AuthEvent) (m : AuthMachine) :
    AuthMachine :=
  es.foldl (fun acc e => authStep localTz e acc) m

/-- The provider machine at mount. -/
def authInitMachine : AuthMachine :=
  { auth := authInitState, store := Store.empty, pendingProfileLoads := [] }

/-- Result of `supabase.auth.signOut()`.  supabase-js v2 reports failure
as a returned error value — the call resolves rather than throwing — and
it fires the SIGNED_OUT notification only when it actually performed the
local sign-out, i.e. not when it returns a non-ignorable error. -/
inductive SignOutResult where
  | ok
  | failed
deriving DecidableEq, Repr

/-- The SIGNED_OUT branch of part_000's listener (lines 122-131). -/
def signedOutListenerV0 (s : AuthState) (d : Store) : AuthState × Store :=
  ({ s with session := none, user := none, workspace := none, isLoading := false }
  , ((((d.removeItem "slack_workspace").removeItem
        "workspace_selected").removeItem "isAuthenticated").removeItem
      "auth_timestamp").removeItem "supabase.auth.token")

/-- The persistence-mirror effect of part_000 lines 67-93: mirrors
`isAuthenticated` and the workspace selection into the durable store
whenever the provider state settles. -/
def mirrorEffectV0 (s : AuthState) (d : Store) : Store :=
  let d1 := if isAuthenticated s then d.setItem "isAuthenticated" "true"
            else d.removeItem "isAuthenticated"
  match s.workspace with
  | some w => (d1.setItem "workspace_selected" "true").setItem
      "current_workspace_id" w.id
  | none => (d1.removeItem "workspace_selected").removeItem "current_workspace_id"

/-- The `logout` flow of part_000 (lines 377-390) together with its two
companion reactions: during `await supabase.auth.signOut()` the
SIGNED_OUT listener runs when the remote sign-out succeeded, and after
the state settles the persistence-mirror effect runs.  `signOut` reports
failure as a value, so the body after the await runs in both cases. -/
def logoutFlowV0 (r : SignOutResult) (s : AuthState) (d : Store) :
    AuthState × Store :=
  let step1 := match r with
    | .ok => signedOutListenerV0 s d
    | .failed => (s, d)
  let s2 := { step1.1 with user := none, session := none, workspace := none }
  let d2 := (step1.2.removeItem "slack_workspace").removeItem "workspace_selected"
  (s2, mirrorEffectV0 s2 d2)

/-- The saved-workspace read of part_000 lines 169-179 / AuthContext.tsx
lines 135-145: `localStorage.getItem('slack_workspace')`; a truthy value
is fed to `JSON.parse` inside try/catch — on success the workspace is
set, on parse failure the corrupt key is removed and the exception is
swallowed; a falsy value (absent key or empty string) skips the whole
block. -/
def readSavedWorkspace (d : Store) (parse : String → Except String Workspace) :
    Option Workspace × Store :=
  match d.getItem "slack_workspace" with
  | none => (none, d)
  | some str =>
      if str = "" then (none, d)
      else
        match parse str with
        | .ok w => (some w, d)
        | .error _ => (none, d.removeItem "slack_workspace")

/-- Spec predicate: the parse attempt failed. -/
def isParseError (r : Except String Workspace) : Bool :=
  match r with
  | .ok _ => false
  | .error _ => true

/-- Responses of the remote auth store consumed by `checkSession`. -/
structure AuthRemote where
  getSessionResult : Option Session
  refreshSessionResult : Option Session
  profileOutcome : ProfileFetchOutcome

/-- `checkSession` of part_000 (lines 140-187): read the durable
authenticated-flag, fetch the remote session; when a session exists load
the profile; when none exists and the flag is `'true'`, make one
`refreshSession()` call and, if it yields a session, adopt it and load
the profile; in every path read the saved workspace blob and finally
clear `isLoading`.  The third component counts `refreshSession()`
calls. -/
def checkSessionV0 (r : AuthRemote) (parse : String → Except String Workspace)
    (localTz : String) (s : AuthState) (d : Store) : AuthState × Store × Nat :=
  let localAuthFlag := d.getItem "isAuthenticated"
  match r.getSessionResult with
  | some sess =>
      let s1 := { s with session := some sess }
      let s2 := applyProfileOutcome sess.user r.profileOutcome localTz s1
      let ws := readSavedWorkspace d parse
      let s3 := match ws.1 with
        | some w => { s2 with workspace := some w }
        | none => s2
      ({ s3 with isLoading := false }, ws.2, 0)
  | none =>
      let s1 := { s with session := none }
      if localAuthFlag = some "true" then
        match r.refreshSessionResult with
        | some sess =>
            let s2 := { s1 with session := some sess }
            let s3 := applyProfileOutcome sess.user r.profileOutcome localTz s2
            let ws := readSavedWorkspace d parse
            let s4 := match ws.1 with
              | some w => { s3 with workspace := some w }
              | none => s3
            ({ s4 with isLoading := false }, ws.2, 1)
        | none =>
            let ws := readSavedWorkspace d parse
            let s2 := match ws.1 with
              | some w => { s1 with workspace := some w }
              | none => s1
            ({ s2 with isLoading := false }, ws.2, 1)
      else
        let ws := readSavedWorkspace d parse
        let s2 := match ws.1 with
          | some w => { s1 with workspace := some w }
          | none => s1
        ({ s2 with isLoading := false }, ws.2, 0)

/-- Startup of the part_000 provider.  React runs mount effects in
declaration order: the persistence-mirror effect (lines 67-93) is
declared first and runs on the initial state — where `isAuthenticated`
is false — so it removes the durable authenticated-flag; only then does
the auth effect (lines 95-195) run and invoke `checkSession`, which
reads the flag at line 143; when `checkSession` settles the state, the
mirror effect runs again. -/
def startupV0 (r : AuthRemote) (parse : String → Except String Workspace)
    (localTz : String) (d : Store) : AuthState × Store × Nat :=
  let d0 := mirrorEffectV0 authInitState d
  let out := checkSessionV0 r parse localTz authInitState d0
  (out.1, mirrorEffectV0 out.1 out.2.1, out.2.2)

/-- JS truthiness of an optional string: `undefined`/absent and `''` are
falsy. -/
def strTruthy : Option String → Bool
  | none => false
  | some s => if s = "" then false else true

/-- The shape of the row handed to `.from('messages').insert({...})`. -/
structure InsertMessageRow where
  content : String
  channel_id : Option String
  user_id : Option String
  parent_message_id : Option String
deriving DecidableEq, Repr

/-- `sendMessage` of part_005 (lines 146-163 and 277-294): throws
`'Channel ID and user required'` when `!channelId || !user?.id`,
otherwise issues the insert with the current channel id and user id. -/
def sendMessageV5 (channelId : Option String) (user : Option User)
    (content : String) (parentMessageId : Option String) :
    Except String InsertMessageRow :=
  if !strTruthy channelId || !strTruthy (user.map (·.id)) then
    Except.error "Channel ID and user required"
  else
    Except.ok { content := content, channel_id := channelId
              , user_id := user.map (·.id)
              , parent_message_id := parentMessageId }

/-- `sendMessage` of part_004 (lines 80-99): no guard — the insert is
issued with whatever `channelId` and `user?.id` are at hand, absent or
not. -/
def sendMessageV4 (channelId : Option String) (user : Option User)
    (content : String) (parentMessageId : Option String) : InsertMessageRow :=
  { content := content, channel_id := channelId
  , user_id := user.map (·.id), parent_message_id := parentMessageId }

/-- Concrete auth user used in scenario runs. -/
def suA : SupabaseUser := { id := "u1", email := some "ada@example.com" }

/-- Concrete session for `suA`. -/
def sessA : Session := { user := suA, access_token := "tokA", refresh_token := "rtokA" }

/-- Concrete profile row for `suA`. -/
def profA : ProfileRow :=
  { display_name := some "Ada", avatar := none, status_text := some "shipping"
  , status_emoji := some "rocket", presence := some "active", timezone := some "UTC" }

/-- Concrete workspace. -/
def wsA : Workspace :=
  { id := "w1", name := "Acme", url := "acme", icon := none
  , isAdmin := true, slug := some "acme" }

/-- A logged-in provider state. -/
def loggedInStateA : AuthState :=
  { user := some (mkUserData suA (some profA) "UTC")
  , session := some sessA, workspace := some wsA, isLoading := false }

/-- A durable store holding all recognized keys, as after a full login
with a selected workspace. -/
def durableLoggedIn : Store :=
  ((((Store.empty.setItem "isAuthenticated" "true").setItem
        "auth_timestamp" "1700000000000").setItem
      "slack_workspace" "ws-blob").setItem
    "workspace_selected" "true").setItem "current_workspace_id" "w1"

/-- A parse function that fails on every input, as `JSON.parse` does on
any corrupt blob. -/
def jsonFail : String → Except String Workspace :=
  fun _ => Except.error "SyntaxError"

/-- A provider state with a live session whose profile has not loaded
yet (the eventual-consistency window the spec describes). -/
def sessionOnlyState : AuthState :=
  { user := none, session := some sessA, workspace := none, isLoading := false }

/-- A remote auth store with no live session and a failing refresh. -/
def remoteNoSession : AuthRemote :=
  { getSessionResult := none, refreshSessionResult := none
  , profileOutcome := .otherError }

/-- A durable store holding only the authenticated-flag. -/
def durableFlagOnly : Store :=
  Store.empty.setItem "isAuthenticated" "true"

/-- A durable store whose workspace blob is the corrupt string
`"corrupt"`. -/
def durableCorruptBlob : Store :=
  Store.empty.setItem "slack_workspace" "corrupt"

/-- A durable store whose workspace blob is the empty string. -/
def durableEmptyBlob : Store :=
  Store.empty.setItem "slack_workspace" ""

end Slackai

namespace Slackai

/-- Claim C1: the spec says a streamed insert whose id is already in the
feed is a no-op and the feed keeps each id at most once.  The source
appends every streamed insert unconditionally (part_005 line 94, part_004
line 47): after a snapshot containing `m1`, a duplicate delivery of the
insert event for `m1` yields `[m1, m1]`, so the no-duplicates invariant
fails at this input. -/
theorem insert_event_duplicates_existing_id :
    applyFeedEvents [.snapshot [msg1], .insert msg1] [] = [msg1, msg1] ∧
    ¬ noDupIds (applyFeedEvents [.snapshot [msg1], .insert msg1] []) := by
  decide

/-- Claim C2: the spec says each streamed insert is placed in sorted
position by creation timestamp, keeping the feed non-decreasing.  The
source appends at the end: after the snapshot `[m1(t=10), m3(t=30)]`
(which is sorted), the streamed insert of `m2(t=20)` produces
`[m1, m3, m2]`, which is not sorted — spec Scenario B expects
`[m1, m2, m3]`. -/
theorem streamed_insert_appends_out_of_order :
    applyFeedEvents [.snapshot [msg1, msg3], .insert msg2] [] = [msg1, msg3, msg2] ∧
    sortedByCreatedAt [msg1, msg3] ∧
    ¬ sortedByCreatedAt (applyFeedEvents [.snapshot [msg1, msg3], .insert msg2] []) := by
  decide

/-- Claim C3: the spec says an update for an absent id synthesizes an
insert from the update payload, and a later insert of that id is a no-op.
The source's UPDATE handler is `prev.map(...)` (part_005 lines 120-122),
a no-op when the id is absent: after an early update for `m2` the feed is
still `[m1]` with no `m2`, and the later insert of `m2` is not a no-op —
it appends. -/
theorem update_for_absent_id_is_dropped :
    applyFeedEvent (.update msg2) [msg1] = [msg1] ∧
    ((applyFeedEvent (.update msg2) [msg1]).all fun m => m.id ≠ msg2.id) = true ∧
    applyFeedEvent (.insert msg2) (applyFeedEvent (.update msg2) [msg1]) = [msg1, msg2] := by
  decide

/-- Claim C9: the spec says a callback delivered after teardown — even one
already in flight at cancellation — produces no observable feed change.
In the source the INSERT handler's refetch continuation (part_005 lines
93-95) consults no liveness flag: an insert notified before cleanup whose
refetch resolves after cleanup still appends to the feed, an observable
change after `removeChannel` returned. -/
theorem inflight_insert_applies_after_cleanup :
    (hookStep .cleanup (hookStep (.insertNotified "m1") hookInit)).subscribed = false ∧
    (hookStep .cleanup (hookStep (.insertNotified "m1") hookInit)).messages = [] ∧
    (hookStep (.insertFetchResolved msg1)
      (hookStep .cleanup (hookStep (.insertNotified "m1") hookInit))).messages = [msg1] := by
  decide

theorem getItem_removeItem_self (d : Store) (k : String) :
    (d.removeItem k).getItem k = none := by
  simp [Store.removeItem, Store.getItem]

theorem getItem_removeItem_ne (d : Store) (k q : String) (h : ¬ q = k) :
    (d.removeItem k).getItem q = d.getItem q := by
  simp [Store.removeItem, Store.getItem, h]

theorem getItem_setItem_ne (d : Store) (k v q : String) (h : ¬ q = k) :
    (d.setItem k v).getItem q = d.getItem q := by
  simp [Store.setItem, Store.getItem, h]

/-- Claim C4 counterexample: from a fully logged-in state with all five
durable keys present, a `logout()` whose remote sign-out fails leaves the
`auth_timestamp` key in the durable store (nothing on the failure path
removes it — only the SIGNED_OUT listener does, and it does not fire),
although Identity/Session/Workspace are cleared. -/
theorem failed_signout_keeps_auth_timestamp :
    (logoutFlowV0 .failed loggedInStateA durableLoggedIn).2.getItem "auth_timestamp"
      = some "1700000000000" ∧
    (logoutFlowV0 .failed loggedInStateA durableLoggedIn).1.session = none ∧
    (logoutFlowV0 .failed loggedInStateA durableLoggedIn).1.user = none := by
  decide

/-- Claim C4 amended: after `logout()` (part_000 lines 377-390, with its
SIGNED_OUT listener and persistence-mirror effect), Identity, Session and
the active Workspace are always cleared and the active-workspace,
workspace-selected, authenticated-flag and current-workspace keys are
always removed, remote outcome notwithstanding; the auth-timestamp key is
removed only when the remote sign-out succeeded (so that the SIGNED_OUT
notification fired). -/
theorem logoutV0_clears_state_and_flags :
    ∀ (r : SignOutResult) (s : AuthState) (d : Store),
      (logoutFlowV0 r s d).1.user = none ∧
      (logoutFlowV0 r s d).1.session = none ∧
      (logoutFlowV0 r s d).1.workspace = none ∧
      (logoutFlowV0 r s d).2.getItem "slack_workspace" = none ∧
      (logoutFlowV0 r s d).2.getItem "workspace_selected" = none ∧
      (logoutFlowV0 r s d).2.getItem "isAuthenticated" = none ∧
      (logoutFlowV0 r s d).2.getItem "current_workspace_id" = none ∧
      (logoutFlowV0 SignOutResult.ok s d).2.getItem "auth_timestamp" = none := by
  intro r s d
  cases r <;> exact ⟨rfl, rfl, rfl, rfl, rfl, rfl, rfl, rfl⟩

/-- Claim C5: the spec says Identity is never non-null while Session is
null.  The profile-load continuation (AuthContext.tsx line 213) calls
`setUser` without re-checking the session: a SIGNED_IN whose profile
fetch is still in flight, followed by SIGNED_OUT, followed by the fetch
resolving, reaches a state with a loaded Identity and a null Session. -/
theorem stale_profile_load_sets_identity_without_session :
    (authSteps "UTC" [.signedIn sessA, .signedOut,
        .profileFetchResolved suA (.found profA)] authInitMachine).auth.session
      = none ∧
    (authSteps "UTC" [.signedIn sessA, .signedOut,
        .profileFetchResolved suA (.found profA)] authInitMachine).auth.user
      = some (mkUserData suA (some profA) "UTC") := by
  exact ⟨rfl, rfl⟩

/-- Claim C6 counterexample: in the state with a live session whose
profile has not loaded, the exposed predicate is `false` although the
Session is non-null — `isAuthenticated` is `!!session && !!user`, not
`!!session`. -/
theorem session_without_identity_not_authenticated :
    sessionOnlyState.session.isSome = true ∧
    isAuthenticated sessionOnlyState = false := by
  decide

/-- Claim C6 amended: the exposed predicate equals `Session non-null AND
Identity non-null`; a live Session whose Identity has not yet loaded does
not count as authenticated. -/
theorem isAuthenticated_iff_session_and_identity :
    ∀ s : AuthState,
      isAuthenticated s = true ↔ (s.session.isSome = true ∧ s.user.isSome = true) := by
  intro s
  simp [isAuthenticated]

/-- Claim C7: the spec says that with the durable authenticated-flag
present and `getSession()` reporting no session, exactly one
`refreshSession()` call is made and the flag is cleared.  In the source
the mount-time run of the mirror effect (part_000 lines 67-93, declared
before the auth effect and executed first, on the initial state where
`isAuthenticated` is false) removes the flag before `checkSession` reads
it at line 143, so the flag read always yields null, the refresh branch
is dead code, and startup makes ZERO `refreshSession()` calls — for
every durable store and every remote response, in particular at the
claim's own scenario (flag stored as `'true'`, `getSession()` and
`refreshSession()` both null). -/
theorem startup_never_refreshes :
    (∀ (r : AuthRemote) (parse : String → Except String Workspace)
        (localTz : String) (d : Store),
        (startupV0 r parse localTz d).2.2 = 0) ∧
    (mirrorEffectV0 authInitState durableFlagOnly).getItem "isAuthenticated"
      = none ∧
    (startupV0 remoteNoSession jsonFail "UTC" durableFlagOnly).1.session = none ∧
    (startupV0 remoteNoSession jsonFail "UTC" durableFlagOnly).1.user = none ∧
    (startupV0 remoteNoSession jsonFail "UTC" durableFlagOnly).2.1.getItem
      "isAuthenticated" = none := by
  refine ⟨fun r parse localTz d => ?_, rfl, rfl, rfl, rfl⟩
  obtain ⟨gs, rs, po⟩ := r
  cases gs <;> rfl

/-- Claim C8 counterexample: the empty string is a stored value that does
not parse as JSON, yet the truthiness guard (`if (savedWorkspace ...)`)
skips the whole block: the workspace stays unset and nothing throws, but
the corrupt key is NOT removed from the durable store. -/
theorem empty_blob_not_removed :
    isParseError (jsonFail "") = true ∧
    (readSavedWorkspace durableEmptyBlob jsonFail).1 = none ∧
    (readSavedWorkspace durableEmptyBlob jsonFail).2.getItem "slack_workspace"
      = some "" := by
  decide

/-- Claim C8 amended: for every stored NON-EMPTY value that fails to
parse, the read fails closed — the corrupt key is removed, the workspace
is treated as unset, and the catch swallows the parse exception (the read
returns normally by construction); an empty stored value is skipped by
the truthiness guard, leaving the key in place. -/
theorem corrupt_workspace_blob_fails_closed :
    ∀ (d : Store) (parse : String → Except String Workspace) (str : String),
      d.getItem "slack_workspace" = some str → str ≠ "" →
      isParseError (parse str) = true →
      readSavedWorkspace d parse = (none, d.removeItem "slack_workspace") ∧
      (readSavedWorkspace d parse).2.getItem "slack_workspace" = none := by
  intro d parse str hGet hne hErr
  have hmain : readSavedWorkspace d parse = (none, d.removeItem "slack_workspace") := by
    unfold readSavedWorkspace
    rw [hGet]
    cases hp : parse str with
    | ok w => rw [hp] at hErr; simp [isParseError] at hErr
    | error e => simp [hne, hp]
  exact ⟨hmain, by rw [hmain]; exact getItem_removeItem_self d "slack_workspace"⟩

/-- Witness for C8 at a concrete corrupt store. -/
theorem corrupt_workspace_blob_fails_closed_witness :
    readSavedWorkspace durableCorruptBlob jsonFail
      = (none, durableCorruptBlob.removeItem "slack_workspace") ∧
    (readSavedWorkspace durableCorruptBlob jsonFail).2.getItem "slack_workspace"
      = none :=
  corrupt_workspace_blob_fails_closed durableCorruptBlob jsonFail "corrupt"
    rfl (by decide) rfl

/-- Claim C10 counterexample: the part_004 `sendMessage` has no guard —
with no channel id and no loaded user it does not throw and issues the
insert attempt with both ids absent. -/
theorem sendMessageV4_inserts_without_ids :
    sendMessageV4 none none "hello" none =
      { content := "hello", channel_id := none, user_id := none
      , parent_message_id := none } := by
  decide

/-- Claim C10 amended: in the part_005 variants, `sendMessage` throws
(and issues no insert) exactly when the channel id or the user id is
missing or empty, and every issued insert row carries the current channel
id and the loaded user's id; the part_004 variant issues the insert
attempt unconditionally. -/
theorem sendMessageV5_guard_spec :
    ∀ (channelId : Option String) (user : Option User) (content : String)
      (parentMessageId : Option String),
      match sendMessageV5 channelId user content parentMessageId with
      | .error _ =>
          strTruthy channelId = false ∨ strTruthy (user.map (·.id)) = false
      | .ok row =>
          row.channel_id = channelId ∧ row.user_id = user.map (·.id) ∧
          strTruthy row.channel_id = true ∧ strTruthy row.user_id = true := by
  intro c u content p
  unfold sendMessageV5
  cases hc : strTruthy c <;> cases hu : strTruthy (u.map (·.id)) <;> simp [hc, hu]

end Slackai
